import Mathlib

/-!
Verification of the THF exercise-enrichment pipeline
(`transfit_enrich_exercises.py`): research topic tagger, exercise topic
inferencer, context builder, and the generation orchestrator loop.
The definitions below are a shallow embedding of the Python source:
stateful parts (the tip store, the generator call, insert success) are
made explicit state / oracle parameters.
-/

namespace THF

/-- The fixed topic vocabulary (keys of `TOPIC_KEYWORDS` in the source). -/
inductive TopicTag where
  | hrt_strength
  | bone_health
  | top_surgery
  | cardio_risk
  | mental_health
deriving DecidableEq, Repr

/-- Python `str.lower`, as a character-wise map (kernel-reducible form of
`String.toLower`). -/
def strLower (s : String) : String :=
  ⟨s.data.map Char.toLower⟩

/-- Whether `needle` occurs at the front of `hay` (helper for substring tests,
embedding Python's `in` operator on strings). -/
def hasPre : List Char → List Char → Bool
  | _, [] => true
  | [], _ :: _ => false
  | a :: as, b :: bs => a == b && hasPre as bs

/-- Whether `needle` occurs as a contiguous subsequence of `hay`
(Python `needle in hay` for strings). -/
def hasSub : List Char → List Char → Bool
  | [], needle => needle.isEmpty
  | hay@(_ :: t), needle => hasPre hay needle || hasSub t needle

/-- Python `kw in text` on strings. -/
def containsSub (text kw : String) : Bool :=
  hasSub text.toList kw.toList

/-- The `TOPIC_KEYWORDS` table from the source, in its (insertion) order. -/
def TOPIC_KEYWORDS : List (TopicTag × List String) :=
  [ (.hrt_strength,
      ["hormone", "androgen", "testosterone", "estradiol",
       "sex steroid", "muscle strength", "lean mass"]),
    (.bone_health,
      ["bone density", "bmd", "osteoporosis", "fracture", "bone mineral"]),
    (.top_surgery,
      ["mastectomy", "top surgery", "chest surgery", "breast surgery"]),
    (.cardio_risk,
      ["cardiovascular", "cardio", "aerobic", "heart disease", "hypertension"]),
    (.mental_health,
      ["depression", "anxiety", "mental health", "distress", "dysphoria"]) ]

/-- A row of the `transfit_research` table, with the fields the core reads.
`topics` is `none` when the column is SQL null. -/
structure ResearchRow where
  id : Nat
  title : String
  takeaways : String
  summary : Option String
  year : Option Int
  journal : Option String
  doi : Option String
  relevant : Bool
  topics : Option (List TopicTag)
  processed : Bool
deriving DecidableEq, Repr

/-- `tag_topics_for_research_row`: assign topic tags based on title + takeaways. -/
def tag_topics_for_research_row (row : ResearchRow) : List TopicTag :=
  let text := strLower (row.title ++ " " ++ row.takeaways)
  TOPIC_KEYWORDS.filterMap fun tk =>
    if tk.2.any (fun k => containsSub text (strLower k)) then some tk.1 else none

/-- One iteration of the `update_research_topics` loop on a single row:
returns the (possibly updated) row and whether a storage write happened.
The write is guarded by `if topics and (row.get("topics") != topics)`. -/
def tagStep (row : ResearchRow) : ResearchRow × Bool :=
  let topics := tag_topics_for_research_row row
  if topics ≠ [] ∧ row.topics ≠ some topics then
    ({ row with topics := some topics, processed := true }, true)
  else
    (row, false)

/-- `update_research_topics`, applied to the store's answer to
`relevant = true` (the rows the source fetches). Returns the list of rows
it returns downstream, together with the number of storage writes performed. -/
def update_research_topics : List ResearchRow → List ResearchRow × Nat
  | [] => ([], 0)
  | row :: rest =>
    let rw := tagStep row
    let tail := update_research_topics rest
    (rw.1 :: tail.1, (if rw.2 then 1 else 0) + tail.2)

/-- An exercise row after `load_exercises` joined in the staging metadata. -/
structure Exercise where
  id : Nat
  slug : String
  name : String
  pattern : Option String
  goal : Option String
  difficulty : Option String
  equipment : List String
  binder_aware : Bool
  pelvic_floor_safe : Bool
  body_parts : Option String
  exercise_type : Option String
  target_muscles : Option String
deriving DecidableEq, Repr

/-- Add a tag to a set modelled as a duplicate-free list (Python `set.add`). -/
def addTopic (l : List TopicTag) (t : TopicTag) : List TopicTag :=
  if t ∈ l then l else l ++ [t]

/-- Add several tags (Python `set.update`). -/
def addTopics (l : List TopicTag) : List TopicTag → List TopicTag
  | [] => l
  | t :: ts => addTopics (addTopic l t) ts

/-- `infer_topics_for_exercise`: infer topic tags for an exercise from
pattern, goal, difficulty, and body region. -/
def infer_topics_for_exercise (ex : Exercise) : List TopicTag :=
  let pattern := strLower (ex.pattern.getD "")
  let goal := strLower (ex.goal.getD "")
  let exercise_type := strLower (ex.exercise_type.getD "")
  let body_parts := strLower (ex.body_parts.getD "")
  let topics : List TopicTag := []
  let topics :=
    if pattern ∈ ["hinge", "squat", "lunge", "carry", "gait"] then
      addTopics topics [.hrt_strength, .bone_health]
    else topics
  let topics :=
    if pattern = "core" then addTopics topics [.hrt_strength, .bone_health]
    else topics
  let topics :=
    if goal = "conditioning" ∨ exercise_type ∈ ["cardio", "plyometrics"] then
      addTopic topics .cardio_risk
    else topics
  let topics :=
    if goal ∈ ["mobility", "recovery"] then
      addTopics topics [.bone_health, .top_surgery]
    else topics
  let topics :=
    if ["chest", "shoulder", "upper arm"].any
        (fun k => containsSub body_parts k) then
      addTopic topics .top_surgery
    else topics
  let topics := if ex.binder_aware then addTopic topics .top_surgery else topics
  let topics :=
    if !ex.pelvic_floor_safe then addTopic topics .hrt_strength else topics
  topics

/-- Python `any(t in row_topics for t in exercise_topics)` with
`row_topics = row.get("topics") or []`. -/
def topicsIntersect (row : ResearchRow) (exercise_topics : List TopicTag) : Bool :=
  exercise_topics.any fun t => decide (t ∈ row.topics.getD [])

/-- The article-selection loop of `build_research_context_for_topics`:
append each matching row, breaking as soon as `max_articles` are collected. -/
def matchLoop (exercise_topics : List TopicTag) (maxA : Nat) :
    List ResearchRow → List ResearchRow → List ResearchRow
  | [], acc => acc
  | row :: rest, acc =>
    let acc' := if topicsIntersect row exercise_topics then acc ++ [row] else acc
    if maxA ≤ acc'.length then acc' else matchLoop exercise_topics maxA rest acc'

/-- The matched articles of a context build (loop started with empty accumulator). -/
def matchedArticles (research_rows : List ResearchRow)
    (exercise_topics : List TopicTag) (maxA : Nat) : List ResearchRow :=
  matchLoop exercise_topics maxA research_rows []

/-- Python `r.get("takeaways") or r.get("summary") or ""`. -/
def takeawaysOrSummary (r : ResearchRow) : String :=
  if r.takeaways ≠ "" then r.takeaways
  else match r.summary with
    | some s => s
    | none => ""

/-- The per-article line rendered by `build_research_context_for_topics`. -/
def renderLine (r : ResearchRow) : String :=
  let title := if r.title ≠ "" then r.title else "Untitled"
  let journal := match r.journal with
    | some j => if j ≠ "" then j else "n.d."
    | none => "n.d."
  let yearStr := match r.year with
    | some y => toString y
    | none => "n.d."
  "- " ++ title ++ " (" ++ yearStr ++ ", " ++ journal ++ "): "
    ++ takeawaysOrSummary r

/-- Python `"\n".join lines`. -/
def joinNewline : List String → String
  | [] => ""
  | [l] => l
  | l :: ls => l ++ "\n" ++ joinNewline ls

/-- `build_research_context_for_topics`: formatted context string plus DOIs. -/
def build_research_context_for_topics (research_rows : List ResearchRow)
    (exercise_topics : List TopicTag) (max_articles : Nat) :
    String × List String :=
  if exercise_topics = [] then ("", [])
  else
    let matched := matchLoop exercise_topics max_articles research_rows []
    if matched = [] then ("", [])
    else
      let lines := matched.map renderLine
      let dois := matched.filterMap fun r =>
        match r.doi with
        | some d => if d ≠ "" then some d else none
        | none => none
      (joinNewline lines, dois)

/-- A minimal JSON value, the shape `json.loads` can return. -/
inductive Json where
  | str : String → Json
  | num : Int → Json
  | jbool : Bool → Json
  | null : Json
  | arr : List Json → Json
  | obj : List (String × Json) → Json

/-- Python truthiness of a parsed JSON value (`if not tips_json`). -/
def jsonTruthy : Json → Bool
  | .str s => !(s == "")
  | .num n => !(n == 0)
  | .jbool b => b
  | .null => false
  | .arr xs => !xs.isEmpty
  | .obj kvs => !kvs.isEmpty

/-- The keys of a JSON object (empty for non-objects). -/
def jsonKeys : Json → List String
  | .obj kvs => kvs.map Prod.fst
  | _ => []

/-- A row of the `exercise_trans_tips` table, as inserted by the orchestrator. -/
structure TipRecord where
  exercise_id : Nat
  population : String
  context : String
  tips : Json
  source_dois : List String
  needs_review : Bool

/-- The orchestrator's fixed population segmentation key. -/
def population : String := "general"

/-- The orchestrator's fixed context scenario key. -/
def context : String := "general"

/-- `exercise_already_has_tips`: the tip-store existence check for a
(exercise id, population, context) tuple, over the store's current rows. -/
def exercise_already_has_tips (store : List TipRecord) (exercise_id : Nat)
    (pop ctx : String) : Bool :=
  store.any fun r =>
    r.exercise_id == exercise_id && r.population == pop && r.context == ctx

/-- Outcome of a call to the external generation service composed with
JSON parsing: either an exception (network, timeout, or `json.loads`
failure) or a successfully parsed JSON value. -/
inductive GenOutcome where
  | raises : GenOutcome
  | returns : Json → GenOutcome

/-- The external collaborators of a run: the generator's behavior per
exercise id, and whether the tip-store insert succeeds per exercise id. -/
structure RunEnv where
  gen : Nat → GenOutcome
  insertOk : Nat → Bool

/-- Python `not research_context.strip()`: all characters are whitespace. -/
def stripIsEmpty (s : String) : Bool :=
  s.toList.all fun c => c.isWhitespace

/-- `generate_tips_json_for_exercise`, with the OpenAI call + `json.loads`
abstracted by the environment oracle: a blank context short-circuits to the
empty object, otherwise the external call runs. -/
def generate_tips (env : RunEnv) (ex : Exercise)
    (research_context : String) : GenOutcome :=
  if stripIsEmpty research_context then .returns (Json.obj [])
  else env.gen ex.id

/-- Terminal state of one exercise in the orchestrator's state machine. -/
inductive StepOutcome where
  | duplicate
  | no_topic
  | no_evidence
  | gen_error
  | empty_result
  | persisted
  | insert_failed
deriving DecidableEq, Repr

/-- The visible result of a run of the main loop: final tip store, success
counter, per-exercise outcomes in visit order, ids for which the generator
was invoked, and whether an insert exception aborted the batch. -/
structure RunResult where
  store : List TipRecord
  successes : Nat
  visited : List (Nat × StepOutcome)
  genCalls : List Nat
  aborted : Bool

/-- The `main` loop's break condition: `MAX_EXERCISES is not None and
processed_count >= MAX_EXERCISES`. -/
def shouldStop : Option Nat → Nat → Bool
  | none, _ => false
  | some m, count => decide (m ≤ count)

/-- The source's `MAX_EXERCISES` constant. -/
def MAX_EXERCISES : Option Nat := some 25

/-- The per-exercise loop of `main`, over an explicit tip store. Research
rows are the tagged rows loaded once before the loop; an insert failure
propagates the exception, ending the loop with `aborted = true`. -/
def mainLoop (env : RunEnv) (rows : List ResearchRow) (maxEx : Option Nat) :
    List Exercise → List TipRecord → Nat → RunResult
  | [], store, count => ⟨store, count, [], [], false⟩
  | ex :: rest, store, count =>
    if shouldStop maxEx count then ⟨store, count, [], [], false⟩
    else if exercise_already_has_tips store ex.id population context then
      let r := mainLoop env rows maxEx rest store count
      { r with visited := (ex.id, .duplicate) :: r.visited }
    else
      let ex_topics := infer_topics_for_exercise ex
      if ex_topics = [] then
        let r := mainLoop env rows maxEx rest store count
        { r with visited := (ex.id, .no_topic) :: r.visited }
      else
        let rc := build_research_context_for_topics rows ex_topics 6
        if rc.1 = "" then
          let r := mainLoop env rows maxEx rest store count
          { r with visited := (ex.id, .no_evidence) :: r.visited }
        else
          match generate_tips env ex rc.1 with
          | .raises =>
            let r := mainLoop env rows maxEx rest store count
            { r with visited := (ex.id, .gen_error) :: r.visited,
                     genCalls := ex.id :: r.genCalls }
          | .returns j =>
            if jsonTruthy j = false then
              let r := mainLoop env rows maxEx rest store count
              { r with visited := (ex.id, .empty_result) :: r.visited,
                       genCalls := ex.id :: r.genCalls }
            else if env.insertOk ex.id then
              let tipRec : TipRecord :=
                ⟨ex.id, population, context, j, rc.2, true⟩
              let r := mainLoop env rows maxEx rest (store ++ [tipRec]) (count + 1)
              { r with visited := (ex.id, .persisted) :: r.visited,
                       genCalls := ex.id :: r.genCalls }
            else
              ⟨store, count, [(ex.id, .insert_failed)], [ex.id], true⟩

/-- The idempotency key of a tip record. -/
def tipKey (r : TipRecord) : Nat × String × String :=
  (r.exercise_id, r.population, r.context)

/-- At most one TipRecord per (exercise id, population, context) tuple. -/
def atMostOnePerTuple (store : List TipRecord) : Prop :=
  (store.map tipKey).Nodup

/-- The parameters of one orchestrator run. -/
structure RunSpec where
  env : RunEnv
  rows : List ResearchRow
  maxEx : Option Nat
  exs : List Exercise

/-- One orchestrator run from a given tip store (counter starts at zero). -/
def runOnce (s : RunSpec) (store : List TipRecord) : List TipRecord :=
  (mainLoop s.env s.rows s.maxEx s.exs store 0).store

/-- Sequential composition of orchestrator runs over the shared tip store. -/
def runMany (specs : List RunSpec) (store : List TipRecord) : List TipRecord :=
  specs.foldl (fun st s => runOnce s st) store

/-! Concrete data used in witnesses and counterexamples. -/

/-- The required keys of a generator response (the schema of §6). -/
def requiredKeys : List String :=
  ["form_focus", "hrt_considerations", "binding_considerations",
   "post_op_considerations", "gender_affirming_modifications",
   "general_safety", "disclaimer", "source_dois"]

/-- A research row matching `hrt_strength` keywords (Scenario B), already
tagged. -/
def rowB : ResearchRow :=
  ⟨1, "Effects of testosterone on muscle strength in trans men",
   "increased lean mass", none, none, none, some "10.1/x", true,
   some [.hrt_strength], false⟩

/-- Scenario B's row before tagging (`topics` still null). -/
def rowB0 : ResearchRow := { rowB with topics := none }

/-- A row whose text matches no keyword but whose stored topics are
non-empty. -/
def rowC : ResearchRow :=
  ⟨2, "A study of sleep", "no findings", none, none, none, none, true,
   some [.hrt_strength], false⟩

/-- A row tagged with only `mental_health`. -/
def rowM : ResearchRow :=
  ⟨3, "Shared decision making", "community support", none, none, none, none,
   true, some [.mental_health], false⟩

/-- A squat exercise (Scenario A). -/
def exA : Exercise :=
  ⟨1, "back-squat", "Back Squat", some "squat", some "strength",
   some "beginner", [], false, true, some "legs", none, none⟩

/-- A second exercise, same attributes as `exA` but a distinct id. -/
def exB : Exercise := { exA with id := 2, slug := "front-squat" }

/-- A generator response that is a valid, non-empty JSON object with every
required key except `disclaimer`. -/
def tipsNoDisclaimer : Json :=
  Json.obj
    [("form_focus", Json.arr []), ("hrt_considerations", Json.arr []),
     ("binding_considerations", Json.arr []),
     ("post_op_considerations", Json.arr []),
     ("gender_affirming_modifications", Json.arr []),
     ("general_safety", Json.arr []),
     ("source_dois", Json.arr [Json.str "10.1/x"])]

/-- Environment whose generator returns the object missing `disclaimer`
and whose inserts succeed. -/
def envC1 : RunEnv := ⟨fun _ => .returns tipsNoDisclaimer, fun _ => true⟩

/-- Environment whose generator call raises. -/
def envRaise : RunEnv := ⟨fun _ => .raises, fun _ => true⟩

/-- Environment whose generator succeeds but whose inserts fail. -/
def envInsFail : RunEnv := ⟨fun _ => .returns tipsNoDisclaimer, fun _ => false⟩

/-- Environment whose generator returns an empty (falsy) object. -/
def envEmpty : RunEnv := ⟨fun _ => .returns (Json.obj []), fun _ => true⟩

/-- An existing tip record for `exA`'s tuple. -/
def tip1 : TipRecord := ⟨1, "general", "general", Json.null, [], true⟩

/-- An existing tip record for `exB`'s tuple. -/
def tip2 : TipRecord := ⟨2, "general", "general", Json.null, [], true⟩

/-! Lemmas about the research topic tagger. -/

theorem tag_topics_set_fields (row : ResearchRow) (t : Option (List TopicTag)) (b : Bool) :
    tag_topics_for_research_row { row with topics := t, processed := b }
      = tag_topics_for_research_row row := rfl

theorem tagStep_snd_iff (row : ResearchRow) :
    (tagStep row).2 = true ↔
      (tag_topics_for_research_row row ≠ [] ∧
        row.topics ≠ some (tag_topics_for_research_row row)) := by
  by_cases h : tag_topics_for_research_row row ≠ [] ∧
      row.topics ≠ some (tag_topics_for_research_row row) <;>
    simp [tagStep, h]

theorem tagStep_fst_write (row : ResearchRow) (h : (tagStep row).2 = true) :
    (tagStep row).1 = { row with topics := some (tag_topics_for_research_row row),
                                 processed := true } := by
  rw [tagStep_snd_iff] at h
  simp [tagStep, h]

theorem tagStep_eq_no_write (row : ResearchRow) (h : (tagStep row).2 = false) :
    tagStep row = (row, false) := by
  have hc : ¬(tag_topics_for_research_row row ≠ [] ∧
      row.topics ≠ some (tag_topics_for_research_row row)) := by
    intro hc
    rw [← tagStep_snd_iff] at hc
    rw [h] at hc
    cases hc
  simp [tagStep, hc]

theorem tagStep_idem (row : ResearchRow) :
    tagStep (tagStep row).1 = ((tagStep row).1, false) := by
  by_cases h : (tagStep row).2 = true
  · rw [tagStep_fst_write row h]
    simp [tagStep, tag_topics_set_fields]
  · have h' : (tagStep row).2 = false := by
      cases hb : (tagStep row).2
      · rfl
      · exact absurd hb h
    rw [tagStep_eq_no_write row h']
    exact tagStep_eq_no_write row h'

theorem update_research_topics_cons (row : ResearchRow) (rest : List ResearchRow) :
    update_research_topics (row :: rest) =
      ((tagStep row).1 :: (update_research_topics rest).1,
        (if (tagStep row).2 then 1 else 0) + (update_research_topics rest).2) := rfl

/-- C6: for any set of research articles, running the Tagger twice with no
intervening changes to the stored articles produces identical
topics/processed state after both runs, and the second run performs zero
storage writes. -/
theorem tagger_idempotent (rows : List ResearchRow) :
    update_research_topics (update_research_topics rows).1
      = ((update_research_topics rows).1, 0) := by
  induction rows with
  | nil => rfl
  | cons row rest ih =>
    rw [update_research_topics_cons, update_research_topics_cons, ih, tagStep_idem]
    simp

/-- C3 counterexample: for `rowC` the computed topic set (empty) differs
from the stored topics (non-empty), yet the Tagger performs no write, so
the claimed "write exactly when different" equivalence fails. -/
theorem tagger_write_guard_cex :
    tag_topics_for_research_row rowC = [] ∧
    rowC.topics = some [TopicTag.hrt_strength] ∧
    ¬((tagStep rowC).2 = true ↔
        rowC.topics ≠ some (tag_topics_for_research_row rowC)) := by
  refine ⟨by decide, by decide, ?_⟩
  decide

/-- C3 amended: the Tagger persists the new topic set and sets
`processed = true` exactly when the computed topic set is NON-EMPTY and
differs from the stored topics; otherwise (including the case of an empty
computed set with non-empty stored topics) it performs no storage write and
leaves the row unchanged. -/
theorem tagger_write_guard (row : ResearchRow) :
    ((tagStep row).2 = true ↔
      (tag_topics_for_research_row row ≠ [] ∧
        row.topics ≠ some (tag_topics_for_research_row row))) ∧
    ((tagStep row).2 = true →
      (tagStep row).1 =
        { row with topics := some (tag_topics_for_research_row row),
                   processed := true }) ∧
    ((tagStep row).2 = false → (tagStep row).1 = row) :=
  ⟨tagStep_snd_iff row, tagStep_fst_write row,
    fun h => congrArg Prod.fst (tagStep_eq_no_write row h)⟩

/-- Witness for C3's amended theorem: on Scenario B's untagged row a write
happens and stores the computed topics. -/
theorem tagger_write_guard_witness :
    (tagStep rowB0).1 =
      { rowB0 with topics := some [TopicTag.hrt_strength], processed := true } := by
  have h := (tagger_write_guard rowB0).2.1 (by decide)
  rw [h]
  rfl

/-! Lemmas about the exercise topic inferencer. -/

theorem mem_addTopic {x t : TopicTag} {l : List TopicTag} :
    x ∈ addTopic l t ↔ x ∈ l ∨ x = t := by
  by_cases h : t ∈ l <;> simp [addTopic, h]
  intro hx
  subst hx
  exact h

theorem mem_addTopics {x : TopicTag} :
    ∀ (ts l : List TopicTag), x ∈ addTopics l ts ↔ x ∈ l ∨ x ∈ ts := by
  intro ts
  induction ts with
  | nil => intro l; simp [addTopics]
  | cons t ts ih =>
    intro l
    simp [addTopics, ih, mem_addTopic]
    tauto

theorem mem_ite_addTopic {x t : TopicTag} {l : List TopicTag} {c : Prop}
    [Decidable c] (h : x ∈ (if c then addTopic l t else l)) : x ∈ l ∨ x = t := by
  split at h
  · exact mem_addTopic.1 h
  · exact Or.inl h

theorem mem_ite_addTopics {x : TopicTag} {l ts : List TopicTag} {c : Prop}
    [Decidable c] (h : x ∈ (if c then addTopics l ts else l)) : x ∈ l ∨ x ∈ ts := by
  split at h
  · exact (mem_addTopics ts l).1 h
  · exact Or.inl h

theorem infer_subset_four (ex : Exercise) (x : TopicTag)
    (hx : x ∈ infer_topics_for_exercise ex) :
    x = .hrt_strength ∨ x = .bone_health ∨ x = .top_surgery ∨ x = .cardio_risk := by
  simp only [infer_topics_for_exercise] at hx
  rcases mem_ite_addTopic hx with hx | h
  · rcases mem_ite_addTopic hx with hx | h
    · rcases mem_ite_addTopic hx with hx | h
      · rcases mem_ite_addTopics hx with hx | h
        · rcases mem_ite_addTopic hx with hx | h
          · rcases mem_ite_addTopics hx with hx | h
            · rcases mem_ite_addTopics hx with hx | h
              · simp at hx
              · simp at h; tauto
            · simp at h; tauto
          · tauto
        · simp at h; tauto
      · tauto
    · tauto
  · tauto
theorem mem_matchLoop_elim {topics : List TopicTag} {maxA : Nat} :
    ∀ (rows acc : List ResearchRow) (row : ResearchRow),
      row ∈ matchLoop topics maxA rows acc →
      row ∈ acc ∨ topicsIntersect row topics = true := by
  intro rows
  induction rows with
  | nil => intro acc row h; exact Or.inl h
  | cons r rest ih =>
    intro acc row h
    simp only [matchLoop] at h
    cases hi : topicsIntersect r topics with
    | true =>
      simp only [hi, if_true] at h
      split at h
      · rcases List.mem_append.1 h with h | h
        · exact Or.inl h
        · rw [List.mem_singleton] at h; subst h; exact Or.inr hi
      · rcases ih _ row h with h | h
        · rcases List.mem_append.1 h with h | h
          · exact Or.inl h
          · rw [List.mem_singleton] at h; subst h; exact Or.inr hi
        · exact Or.inr h
    | false =>
      simp only [hi, Bool.false_eq_true, if_false] at h
      split at h
      · exact Or.inl h
      · exact ih _ row h

/-- C8: for every exercise the Inferencer's output is a subset of the fixed
five-element topic vocabulary, and two calls on the same input yield the
same topic set (the embedding is a pure function). -/
theorem inferencer_closure_det (ex : Exercise) :
    (∀ x ∈ infer_topics_for_exercise ex,
      x ∈ [TopicTag.hrt_strength, TopicTag.bone_health, TopicTag.top_surgery,
            TopicTag.cardio_risk, TopicTag.mental_health]) ∧
    infer_topics_for_exercise ex = infer_topics_for_exercise ex :=
  ⟨fun x _ => by cases x <;> simp, rfl⟩

/-- Witness for C8 at Scenario A's squat exercise. -/
theorem inferencer_closure_det_witness :
    TopicTag.hrt_strength ∈
      [TopicTag.hrt_strength, TopicTag.bone_health, TopicTag.top_surgery,
        TopicTag.cardio_risk, TopicTag.mental_health] :=
  (inferencer_closure_det exA).1 TopicTag.hrt_strength (by decide)

/-- C10: no inference rule produces `mental_health`: the Inferencer's output
is a subset of the other four tags, and an article tagged only
`mental_health` is never selected into any exercise's evidence context. -/
theorem infer_no_mental_health (ex : Exercise) :
    TopicTag.mental_health ∉ infer_topics_for_exercise ex ∧
    (∀ x ∈ infer_topics_for_exercise ex,
      x ∈ [TopicTag.hrt_strength, TopicTag.bone_health, TopicTag.top_surgery,
            TopicTag.cardio_risk]) ∧
    (∀ (rows : List ResearchRow) (row : ResearchRow) (maxA : Nat),
      row.topics = some [TopicTag.mental_health] →
      row ∉ matchedArticles rows (infer_topics_for_exercise ex) maxA) := by
  have hsub : ∀ x ∈ infer_topics_for_exercise ex,
      x ∈ [TopicTag.hrt_strength, TopicTag.bone_health, TopicTag.top_surgery,
            TopicTag.cardio_risk] := by
    intro x hx
    rcases infer_subset_four ex x hx with h | h | h | h <;> subst h <;> simp
  have hnm : TopicTag.mental_health ∉ infer_topics_for_exercise ex := by
    intro hx
    have := hsub _ hx
    simp at this
  refine ⟨hnm, hsub, ?_⟩
  intro rows row maxA htop hmem
  rcases mem_matchLoop_elim rows [] row hmem with h | h
  · simp at h
  · rw [topicsIntersect] at h
    rw [List.any_eq_true] at h
    rcases h with ⟨t, ht, hmemt⟩
    rw [htop] at hmemt
    simp at hmemt
    subst hmemt
    exact hnm ht

/-- Witness for C10: the `mental_health`-only row is not selected for
Scenario A's squat exercise. -/
theorem infer_no_mental_health_witness :
    rowM ∉ matchedArticles [rowM] (infer_topics_for_exercise exA) 6 :=
  (infer_no_mental_health exA).2.2 [rowM] rowM 6 rfl

/-! Lemmas about the context builder. -/

theorem matchLoop_cons (topics : List TopicTag) (maxA : Nat) (r : ResearchRow)
    (rest acc : List ResearchRow) :
    matchLoop topics maxA (r :: rest) acc =
      (if topicsIntersect r topics then
        (if maxA ≤ (acc ++ [r]).length then acc ++ [r]
         else matchLoop topics maxA rest (acc ++ [r]))
       else
        (if maxA ≤ acc.length then acc else matchLoop topics maxA rest acc)) := by
  cases hi : topicsIntersect r topics <;>
    simp [matchLoop, hi]

theorem matchLoop_eq (topics : List TopicTag) (maxA : Nat) :
    ∀ (rows acc : List ResearchRow), acc.length < maxA →
      matchLoop topics maxA rows acc
        = acc ++ (rows.filter fun r => topicsIntersect r topics).take
            (maxA - acc.length) := by
  intro rows
  induction rows with
  | nil => intro acc h; simp [matchLoop]
  | cons r rest ih =>
    intro acc h
    rw [matchLoop_cons]
    cases hi : topicsIntersect r topics with
    | true =>
      rw [if_pos rfl]
      simp only [List.filter_cons, hi, if_true]
      by_cases hm : maxA ≤ (acc ++ [r]).length
      · rw [if_pos hm]
        have hone : maxA - acc.length = 1 := by
          simp only [List.length_append, List.length_cons, List.length_nil] at hm
          omega
        rw [hone, List.take_succ_cons, List.take_zero]
      · rw [if_neg hm]
        have hlt : (acc ++ [r]).length < maxA := by omega
        rw [ih (acc ++ [r]) hlt]
        have hk : ∃ k, maxA - acc.length = k + 1 := by
          refine ⟨maxA - acc.length - 1, ?_⟩
          omega
        rcases hk with ⟨k, hk⟩
        have hk' : maxA - (acc ++ [r]).length = k := by
          simp only [List.length_append, List.length_cons, List.length_nil]
          omega
        rw [hk, hk', List.take_succ_cons]
        simp
    | false =>
      rw [if_neg (by simp)]
      simp only [List.filter_cons, hi, Bool.false_eq_true, if_false]
      have hn : ¬ maxA ≤ acc.length := by omega
      rw [if_neg hn, ih acc h]

theorem matchedArticles_eq (rows : List ResearchRow) (topics : List TopicTag)
    (maxA : Nat) (h : 1 ≤ maxA) :
    matchedArticles rows topics maxA
      = (rows.filter fun r => topicsIntersect r topics).take maxA := by
  rw [matchedArticles, matchLoop_eq topics maxA rows [] (by simpa using h)]
  simp

theorem renderLine_ne_empty (r : ResearchRow) : renderLine r ≠ "" := by
  intro h
  have hd : (renderLine r).data = "".data := by rw [h]
  simp only [renderLine, String.data_append] at hd
  simp at hd

theorem joinNewline_cons_ne_empty (a : String) (l : List String) (ha : a ≠ "") :
    joinNewline (a :: l) ≠ "" := by
  cases l with
  | nil => exact ha
  | cons b bs =>
    intro h
    have hd : (joinNewline (a :: b :: bs)).data = "".data := by rw [h]
    simp only [joinNewline, String.data_append] at hd
    rcases List.append_eq_nil.1 hd with ⟨h3, h4⟩
    rcases List.append_eq_nil.1 h3 with ⟨h5, h6⟩
    cases h6
/-- C9: for a non-empty exercise topic set (and positive `max_articles`,
the default being 6) the selection loop picks exactly the first matching
articles in input order, never more than `max_articles` of them. -/
theorem context_selection_order (rows : List ResearchRow)
    (topics : List TopicTag) (maxA : Nat) (ht : topics ≠ []) (h : 1 ≤ maxA) :
    matchedArticles rows topics maxA
        = (rows.filter fun r => topicsIntersect r topics).take maxA ∧
    (matchedArticles rows topics maxA).Sublist rows ∧
    (matchedArticles rows topics maxA).length ≤ maxA := by
  have he := matchedArticles_eq rows topics maxA h
  refine ⟨he, ?_, ?_⟩
  · rw [he]
    exact (List.take_sublist _ _).trans (List.filter_sublist _)
  · rw [he, List.length_take]
    exact inf_le_left

/-- Witness for C9 on Scenario A/B data. -/
theorem context_selection_order_witness :
    matchedArticles [rowB] [TopicTag.hrt_strength] 6
      = ([rowB].filter fun r => topicsIntersect r [TopicTag.hrt_strength]).take 6 :=
  (context_selection_order [rowB] [TopicTag.hrt_strength] 6 (by decide)
    (by decide)).1

/-- C7: the context builder returns `("", [])` exactly when the exercise
topic set is empty or no article's topics intersect it. -/
theorem context_emptiness (rows : List ResearchRow) (topics : List TopicTag)
    (maxA : Nat) (h : 1 ≤ maxA) :
    (build_research_context_for_topics rows topics maxA = ("", []) ↔
      topics = [] ∨ ∀ r ∈ rows, topicsIntersect r topics = false) := by
  by_cases ht : topics = []
  · simp [build_research_context_for_topics, ht]
  · simp only [build_research_context_for_topics]
    rw [if_neg ht]
    have he : matchLoop topics maxA rows []
        = (rows.filter fun r => topicsIntersect r topics).take maxA :=
      matchedArticles_eq rows topics maxA h
    by_cases hm : matchLoop topics maxA rows [] = []
    · rw [if_pos hm]
      constructor
      · intro _
        right
        intro r hr
        have hf : (rows.filter fun r => topicsIntersect r topics) = [] := by
          rw [he] at hm
          rcases List.take_eq_nil_iff.1 hm with h0 | h0
          · omega
          · exact h0
        have := List.filter_eq_nil_iff.1 hf r hr
        simpa using this
      · intro _
        rfl
    · rw [if_neg hm]
      constructor
      · intro hpair
        exfalso
        rcases List.exists_cons_of_ne_nil hm with ⟨m, ms, hms⟩
        rw [Prod.ext_iff] at hpair
        have hfst := hpair.1
        rw [hms] at hfst
        simp only [List.map_cons] at hfst
        exact joinNewline_cons_ne_empty _ _ (renderLine_ne_empty m) hfst
      · intro hor
        exfalso
        rcases hor with h0 | hall
        · exact ht h0
        · apply hm
          rw [he]
          have hf : (rows.filter fun r => topicsIntersect r topics) = [] :=
            List.filter_eq_nil_iff.2 (fun a ha => by simp [hall a ha])
          rw [hf, List.take_nil]

/-- Witness for C7: a `mental_health`-only article gives an empty context
for an `hrt_strength` query. -/
theorem context_emptiness_witness :
    build_research_context_for_topics [rowM] [TopicTag.hrt_strength] 6
      = ("", []) :=
  (context_emptiness [rowM] [TopicTag.hrt_strength] 6 (by decide)).2
    (Or.inr (by decide))

/-! Step equations for the orchestrator loop. -/

theorem mainLoop_stop (env : RunEnv) (rows : List ResearchRow)
    (maxEx : Option Nat) (ex : Exercise) (rest : List Exercise)
    (store : List TipRecord) (count : Nat)
    (h : shouldStop maxEx count = true) :
    mainLoop env rows maxEx (ex :: rest) store count
      = ⟨store, count, [], [], false⟩ := by
  simp [mainLoop, h]

theorem mainLoop_dup (env : RunEnv) (rows : List ResearchRow)
    (maxEx : Option Nat) (ex : Exercise) (rest : List Exercise)
    (store : List TipRecord) (count : Nat)
    (hstop : shouldStop maxEx count = false)
    (hdup : exercise_already_has_tips store ex.id population context = true) :
    mainLoop env rows maxEx (ex :: rest) store count =
      (let r := mainLoop env rows maxEx rest store count
       { r with visited := (ex.id, StepOutcome.duplicate) :: r.visited }) := by
  simp [mainLoop, hstop, hdup]

theorem mainLoop_no_topic (env : RunEnv) (rows : List ResearchRow)
    (maxEx : Option Nat) (ex : Exercise) (rest : List Exercise)
    (store : List TipRecord) (count : Nat)
    (hstop : shouldStop maxEx count = false)
    (hdup : exercise_already_has_tips store ex.id population context = false)
    (htop : infer_topics_for_exercise ex = []) :
    mainLoop env rows maxEx (ex :: rest) store count =
      (let r := mainLoop env rows maxEx rest store count
       { r with visited := (ex.id, StepOutcome.no_topic) :: r.visited }) := by
  simp [mainLoop, hstop, hdup, htop]

theorem mainLoop_no_evidence (env : RunEnv) (rows : List ResearchRow)
    (maxEx : Option Nat) (ex : Exercise) (rest : List Exercise)
    (store : List TipRecord) (count : Nat)
    (hstop : shouldStop maxEx count = false)
    (hdup : exercise_already_has_tips store ex.id population context = false)
    (htop : infer_topics_for_exercise ex ≠ [])
    (hctx : (build_research_context_for_topics rows
        (infer_topics_for_exercise ex) 6).1 = "") :
    mainLoop env rows maxEx (ex :: rest) store count =
      (let r := mainLoop env rows maxEx rest store count
       { r with visited := (ex.id, StepOutcome.no_evidence) :: r.visited }) := by
  simp [mainLoop, hstop, hdup, htop, hctx]

theorem mainLoop_gen_raises (env : RunEnv) (rows : List ResearchRow)
    (maxEx : Option Nat) (ex : Exercise) (rest : List Exercise)
    (store : List TipRecord) (count : Nat)
    (hstop : shouldStop maxEx count = false)
    (hdup : exercise_already_has_tips store ex.id population context = false)
    (htop : infer_topics_for_exercise ex ≠ [])
    (hctx : (build_research_context_for_topics rows
        (infer_topics_for_exercise ex) 6).1 ≠ "")
    (hgen : generate_tips env ex (build_research_context_for_topics rows
        (infer_topics_for_exercise ex) 6).1 = .raises) :
    mainLoop env rows maxEx (ex :: rest) store count =
      (let r := mainLoop env rows maxEx rest store count
       { r with visited := (ex.id, StepOutcome.gen_error) :: r.visited,
                genCalls := ex.id :: r.genCalls }) := by
  simp [mainLoop, hstop, hdup, htop, hctx, hgen]

theorem mainLoop_gen_falsy (env : RunEnv) (rows : List ResearchRow)
    (maxEx : Option Nat) (ex : Exercise) (rest : List Exercise)
    (store : List TipRecord) (count : Nat) (j : Json)
    (hstop : shouldStop maxEx count = false)
    (hdup : exercise_already_has_tips store ex.id population context = false)
    (htop : infer_topics_for_exercise ex ≠ [])
    (hctx : (build_research_context_for_topics rows
        (infer_topics_for_exercise ex) 6).1 ≠ "")
    (hgen : generate_tips env ex (build_research_context_for_topics rows
        (infer_topics_for_exercise ex) 6).1 = .returns j)
    (htr : jsonTruthy j = false) :
    mainLoop env rows maxEx (ex :: rest) store count =
      (let r := mainLoop env rows maxEx rest store count
       { r with visited := (ex.id, StepOutcome.empty_result) :: r.visited,
                genCalls := ex.id :: r.genCalls }) := by
  simp [mainLoop, hstop, hdup, htop, hctx, hgen, htr]

theorem mainLoop_persist (env : RunEnv) (rows : List ResearchRow)
    (maxEx : Option Nat) (ex : Exercise) (rest : List Exercise)
    (store : List TipRecord) (count : Nat) (j : Json)
    (hstop : shouldStop maxEx count = false)
    (hdup : exercise_already_has_tips store ex.id population context = false)
    (htop : infer_topics_for_exercise ex ≠ [])
    (hctx : (build_research_context_for_topics rows
        (infer_topics_for_exercise ex) 6).1 ≠ "")
    (hgen : generate_tips env ex (build_research_context_for_topics rows
        (infer_topics_for_exercise ex) 6).1 = .returns j)
    (htr : jsonTruthy j = true)
    (hins : env.insertOk ex.id = true) :
    mainLoop env rows maxEx (ex :: rest) store count =
      (let r := mainLoop env rows maxEx rest
          (store ++ [⟨ex.id, population, context, j,
            (build_research_context_for_topics rows
              (infer_topics_for_exercise ex) 6).2, true⟩])
          (count + 1)
       { r with visited := (ex.id, StepOutcome.persisted) :: r.visited,
                genCalls := ex.id :: r.genCalls }) := by
  simp [mainLoop, hstop, hdup, htop, hctx, hgen, htr, hins]

theorem mainLoop_insert_fail (env : RunEnv) (rows : List ResearchRow)
    (maxEx : Option Nat) (ex : Exercise) (rest : List Exercise)
    (store : List TipRecord) (count : Nat) (j : Json)
    (hstop : shouldStop maxEx count = false)
    (hdup : exercise_already_has_tips store ex.id population context = false)
    (htop : infer_topics_for_exercise ex ≠ [])
    (hctx : (build_research_context_for_topics rows
        (infer_topics_for_exercise ex) 6).1 ≠ "")
    (hgen : generate_tips env ex (build_research_context_for_topics rows
        (infer_topics_for_exercise ex) 6).1 = .returns j)
    (htr : jsonTruthy j = true)
    (hins : env.insertOk ex.id = false) :
    mainLoop env rows maxEx (ex :: rest) store count =
      ⟨store, count, [(ex.id, StepOutcome.insert_failed)], [ex.id], true⟩ := by
  simp [mainLoop, hstop, hdup, htop, hctx, hgen, htr, hins]
theorem shouldStop_false_of_not_true {maxEx : Option Nat} {count : Nat}
    (h : ¬ shouldStop maxEx count = true) : shouldStop maxEx count = false := by
  cases hb : shouldStop maxEx count
  · rfl
  · exact absurd hb h

theorem tipKey_ne_of_no_tips {store : List TipRecord} {i : Nat}
    (h : exercise_already_has_tips store i population context = false) :
    ∀ r ∈ store, tipKey r ≠ (i, population, context) := by
  intro r hr heq
  rw [exercise_already_has_tips, List.any_eq_false] at h
  apply h r hr
  have h1 : r.exercise_id = i := congrArg Prod.fst heq
  have h2 : r.population = population := congrArg (fun p => p.2.1) heq
  have h3 : r.context = context := congrArg (fun p => p.2.2) heq
  simp [h1, h2, h3]

theorem append_keys_nodup {store : List TipRecord} {t : TipRecord}
    (h : atMostOnePerTuple store)
    (hnew : ∀ r ∈ store, tipKey r ≠ tipKey t) :
    atMostOnePerTuple (store ++ [t]) := by
  rw [atMostOnePerTuple, List.map_append, List.nodup_append]
  refine ⟨h, by simp, ?_⟩
  intro k hk hk'
  simp only [List.map_cons, List.map_nil, List.mem_singleton] at hk'
  rcases List.mem_map.1 hk with ⟨r, hr, hkr⟩
  exact hnew r hr (hkr.symm ▸ hk' ▸ rfl)

theorem mainLoop_keys_nodup (env : RunEnv) (rows : List ResearchRow)
    (maxEx : Option Nat) :
    ∀ (exs : List Exercise) (store : List TipRecord) (count : Nat),
      atMostOnePerTuple store →
      atMostOnePerTuple (mainLoop env rows maxEx exs store count).store := by
  intro exs
  induction exs with
  | nil => intro store count h; exact h
  | cons ex rest ih =>
    intro store count h
    by_cases hstop : shouldStop maxEx count = true
    · rw [mainLoop_stop env rows maxEx ex rest store count hstop]
      exact h
    · have hstop' := shouldStop_false_of_not_true hstop
      by_cases hdup : exercise_already_has_tips store ex.id population context = true
      · rw [mainLoop_dup env rows maxEx ex rest store count hstop' hdup]
        exact ih store count h
      · have hdup' : exercise_already_has_tips store ex.id population context = false := by
          cases hb : exercise_already_has_tips store ex.id population context
          · rfl
          · exact absurd hb hdup
        by_cases htop : infer_topics_for_exercise ex = []
        · rw [mainLoop_no_topic env rows maxEx ex rest store count hstop' hdup' htop]
          exact ih store count h
        · by_cases hctx : (build_research_context_for_topics rows
              (infer_topics_for_exercise ex) 6).1 = ""
          · rw [mainLoop_no_evidence env rows maxEx ex rest store count hstop' hdup'
              htop hctx]
            exact ih store count h
          · cases hgen : generate_tips env ex (build_research_context_for_topics rows
                (infer_topics_for_exercise ex) 6).1 with
            | raises =>
              rw [mainLoop_gen_raises env rows maxEx ex rest store count hstop' hdup'
                htop hctx hgen]
              exact ih store count h
            | returns j =>
              cases htr : jsonTruthy j with
              | false =>
                rw [mainLoop_gen_falsy env rows maxEx ex rest store count j hstop'
                  hdup' htop hctx hgen htr]
                exact ih store count h
              | true =>
                cases hins : env.insertOk ex.id with
                | false =>
                  rw [mainLoop_insert_fail env rows maxEx ex rest store count j hstop'
                    hdup' htop hctx hgen htr hins]
                  exact h
                | true =>
                  rw [mainLoop_persist env rows maxEx ex rest store count j hstop'
                    hdup' htop hctx hgen htr hins]
                  refine ih _ _ (append_keys_nodup h ?_)
                  exact tipKey_ne_of_no_tips hdup'

theorem mainLoop_successes_le (env : RunEnv) (rows : List ResearchRow) (m : Nat) :
    ∀ (exs : List Exercise) (store : List TipRecord) (count : Nat),
      count ≤ m → (mainLoop env rows (some m) exs store count).successes ≤ m := by
  intro exs
  induction exs with
  | nil => intro store count h; exact h
  | cons ex rest ih =>
    intro store count h
    by_cases hstop : shouldStop (some m) count = true
    · rw [mainLoop_stop env rows (some m) ex rest store count hstop]
      exact h
    · have hstop' := shouldStop_false_of_not_true hstop
      have hlt : count < m := by
        rw [shouldStop] at hstop'
        simpa using hstop'
      by_cases hdup : exercise_already_has_tips store ex.id population context = true
      · rw [mainLoop_dup env rows (some m) ex rest store count hstop' hdup]
        exact ih store count h
      · have hdup' : exercise_already_has_tips store ex.id population context = false := by
          cases hb : exercise_already_has_tips store ex.id population context
          · rfl
          · exact absurd hb hdup
        by_cases htop : infer_topics_for_exercise ex = []
        · rw [mainLoop_no_topic env rows (some m) ex rest store count hstop' hdup' htop]
          exact ih store count h
        · by_cases hctx : (build_research_context_for_topics rows
              (infer_topics_for_exercise ex) 6).1 = ""
          · rw [mainLoop_no_evidence env rows (some m) ex rest store count hstop' hdup'
              htop hctx]
            exact ih store count h
          · cases hgen : generate_tips env ex (build_research_context_for_topics rows
                (infer_topics_for_exercise ex) 6).1 with
            | raises =>
              rw [mainLoop_gen_raises env rows (some m) ex rest store count hstop' hdup'
                htop hctx hgen]
              exact ih store count h
            | returns j =>
              cases htr : jsonTruthy j with
              | false =>
                rw [mainLoop_gen_falsy env rows (some m) ex rest store count j hstop'
                  hdup' htop hctx hgen htr]
                exact ih store count h
              | true =>
                cases hins : env.insertOk ex.id with
                | false =>
                  rw [mainLoop_insert_fail env rows (some m) ex rest store count j hstop'
                    hdup' htop hctx hgen htr hins]
                  exact h
                | true =>
                  rw [mainLoop_persist env rows (some m) ex rest store count j hstop'
                    hdup' htop hctx hgen htr hins]
                  exact ih _ (count + 1) (by omega)

theorem runMany_nodup : ∀ (specs : List RunSpec) (store : List TipRecord),
    atMostOnePerTuple store → atMostOnePerTuple (runMany specs store) := by
  intro specs
  induction specs with
  | nil => intro store h; exact h
  | cons s ss ih =>
    intro store h
    exact ih _ (mainLoop_keys_nodup s.env s.rows s.maxEx s.exs store 0 h)
/-- C1 counterexample: a generator response that is a valid, non-empty JSON
object with every required key except `disclaimer` is NOT treated as a
generation failure: the orchestrator inserts a TipRecord containing it and
increments the success counter. -/
theorem gen_missing_keys_cex :
    jsonTruthy tipsNoDisclaimer = true ∧
    "disclaimer" ∈ requiredKeys ∧
    "disclaimer" ∉ jsonKeys tipsNoDisclaimer ∧
    envC1.gen exA.id = GenOutcome.returns tipsNoDisclaimer ∧
    (mainLoop envC1 [rowB] MAX_EXERCISES [exA] [] 0).successes = 1 ∧
    (mainLoop envC1 [rowB] MAX_EXERCISES [exA] [] 0).store.map TipRecord.tips
      = [tipsNoDisclaimer] ∧
    (mainLoop envC1 [rowB] MAX_EXERCISES [exA] [] 0).visited
      = [(exA.id, StepOutcome.persisted)] := by
  exact ⟨rfl, by decide, by decide, rfl, by decide, rfl, by decide⟩

/-- C1 amended: the orchestrator treats a generator response as a failure
only when the call raises or the parsed value is falsy (e.g. the empty
object): then no TipRecord is written, the counter is unchanged and the
batch continues. A valid non-empty JSON object is persisted and counted as
a success even when required keys (such as `disclaimer`) are missing — no
key validation is performed. -/
theorem gen_result_validation (env : RunEnv) (rows : List ResearchRow)
    (maxEx : Option Nat) (ex : Exercise) (rest : List Exercise)
    (store : List TipRecord) (count : Nat)
    (hstop : shouldStop maxEx count = false)
    (hdup : exercise_already_has_tips store ex.id population context = false)
    (htop : infer_topics_for_exercise ex ≠ [])
    (hctx : (build_research_context_for_topics rows
        (infer_topics_for_exercise ex) 6).1 ≠ "") :
    (∀ j : Json,
      generate_tips env ex (build_research_context_for_topics rows
        (infer_topics_for_exercise ex) 6).1 = .returns j →
      jsonTruthy j = false →
      mainLoop env rows maxEx (ex :: rest) store count =
        (let r := mainLoop env rows maxEx rest store count
         { r with visited := (ex.id, StepOutcome.empty_result) :: r.visited,
                  genCalls := ex.id :: r.genCalls })) ∧
    (∀ j : Json,
      generate_tips env ex (build_research_context_for_topics rows
        (infer_topics_for_exercise ex) 6).1 = .returns j →
      jsonTruthy j = true →
      env.insertOk ex.id = true →
      mainLoop env rows maxEx (ex :: rest) store count =
        (let r := mainLoop env rows maxEx rest
            (store ++ [⟨ex.id, population, context, j,
              (build_research_context_for_topics rows
                (infer_topics_for_exercise ex) 6).2, true⟩])
            (count + 1)
         { r with visited := (ex.id, StepOutcome.persisted) :: r.visited,
                  genCalls := ex.id :: r.genCalls })) :=
  ⟨fun j hgen htr =>
      mainLoop_gen_falsy env rows maxEx ex rest store count j hstop hdup htop
        hctx hgen htr,
    fun j hgen htr hins =>
      mainLoop_persist env rows maxEx ex rest store count j hstop hdup htop
        hctx hgen htr hins⟩

/-- Witness for C1's amended theorem: an empty-object response skips the
exercise; the non-empty object missing `disclaimer` is persisted. -/
theorem gen_result_validation_witness :
    mainLoop envEmpty [rowB] (some 25) [exA] [] 0 =
      ⟨[], 0, [(1, StepOutcome.empty_result)], [1], false⟩ ∧
    mainLoop envC1 [rowB] (some 25) [exA] [] 0 =
      ⟨[⟨1, population, context, tipsNoDisclaimer, ["10.1/x"], true⟩],
        1, [(1, StepOutcome.persisted)], [1], false⟩ := by
  constructor
  · have h := (gen_result_validation envEmpty [rowB] (some 25) exA [] [] 0
      (by decide) (by decide) (by decide) (by decide)).1 (Json.obj []) rfl rfl
    rw [h]
    rfl
  · have h := (gen_result_validation envC1 [rowB] (some 25) exA [] [] 0
      (by decide) (by decide) (by decide) (by decide)).2 tipsNoDisclaimer rfl
      rfl rfl
    rw [h]
    rfl

/-- C2: across any number of sequential orchestrator runs over a shared tip
store, at most one TipRecord exists per (exercise id, population, context)
tuple; and a run whose existence check finds an existing record skips the
exercise as DUPLICATE — same store, same counter, no generator call. -/
theorem tip_at_most_one (specs : List RunSpec) (store : List TipRecord)
    (h : atMostOnePerTuple store) :
    atMostOnePerTuple (runMany specs store) ∧
    (∀ (env : RunEnv) (rows : List ResearchRow) (maxEx : Option Nat)
        (ex : Exercise) (rest : List Exercise) (st : List TipRecord)
        (count : Nat),
      shouldStop maxEx count = false →
      exercise_already_has_tips st ex.id population context = true →
      mainLoop env rows maxEx (ex :: rest) st count =
        (let r := mainLoop env rows maxEx rest st count
         { r with visited := (ex.id, StepOutcome.duplicate) :: r.visited })) :=
  ⟨runMany_nodup specs store h,
    fun env rows maxEx ex rest st count hstop hdup =>
      mainLoop_dup env rows maxEx ex rest st count hstop hdup⟩

/-- Witness for C2: one run over a store already holding `exA`'s record
keeps at most one record per tuple, and the duplicate path leaves the
store, counter and generator untouched. -/
theorem tip_at_most_one_witness :
    atMostOnePerTuple (runMany [⟨envRaise, [], none, [exA]⟩] [tip1]) ∧
    mainLoop envRaise [] none [exA] [tip1] 0 =
      ⟨[tip1], 0, [(1, StepOutcome.duplicate)], [], false⟩ := by
  constructor
  · exact (tip_at_most_one [⟨envRaise, [], none, [exA]⟩] [tip1]
      (by simp [atMostOnePerTuple])).1
  · have h := (tip_at_most_one [] [tip1] (by simp [atMostOnePerTuple])).2
      envRaise [] none exA [] [tip1] 0 rfl (by decide)
    rw [h]
    rfl

/-- C4 counterexample: with a configured maximum of 1, two duplicate
exercises are both taken through the state machine, so the number of
exercises visited exceeds the configured maximum. -/
theorem batch_bound_cex :
    MAX_EXERCISES = some 25 ∧
    (mainLoop envRaise [] (some 1) [exA, exB] [tip1, tip2] 0).visited
      = [(1, StepOutcome.duplicate), (2, StepOutcome.duplicate)] ∧
    ¬((mainLoop envRaise [] (some 1) [exA, exB] [tip1, tip2] 0).visited.length
        ≤ 1) := by
  exact ⟨rfl, by decide, by decide⟩

/-- C4 amended: the configured maximum bounds the number of SUCCESSFULLY
PERSISTED exercises (the success counter), not the number of exercises
taken through the state machine; skipped exercises do not count against
the maximum. -/
theorem batch_success_bound (env : RunEnv) (rows : List ResearchRow)
    (m : Nat) (exs : List Exercise) (store : List TipRecord) :
    (mainLoop env rows (some m) exs store 0).successes ≤ m :=
  mainLoop_successes_le env rows m exs store 0 (Nat.zero_le m)

/-- C5: when the generator call raises, only the current exercise is
skipped (no TipRecord, counter unchanged, batch continues); when the
insert fails, the exception propagates and aborts the batch (store and
counter unchanged by the failed insert, remaining exercises unvisited).
In each case the exercise triggers exactly one generator call and no retry. -/
theorem gen_exception_insert_failure (env : RunEnv) (rows : List ResearchRow)
    (maxEx : Option Nat) (ex : Exercise) (rest : List Exercise)
    (store : List TipRecord) (count : Nat)
    (hstop : shouldStop maxEx count = false)
    (hdup : exercise_already_has_tips store ex.id population context = false)
    (htop : infer_topics_for_exercise ex ≠ [])
    (hctx : (build_research_context_for_topics rows
        (infer_topics_for_exercise ex) 6).1 ≠ "") :
    (generate_tips env ex (build_research_context_for_topics rows
        (infer_topics_for_exercise ex) 6).1 = .raises →
      mainLoop env rows maxEx (ex :: rest) store count =
        (let r := mainLoop env rows maxEx rest store count
         { r with visited := (ex.id, StepOutcome.gen_error) :: r.visited,
                  genCalls := ex.id :: r.genCalls })) ∧
    (∀ j : Json,
      generate_tips env ex (build_research_context_for_topics rows
        (infer_topics_for_exercise ex) 6).1 = .returns j →
      jsonTruthy j = true →
      env.insertOk ex.id = false →
      mainLoop env rows maxEx (ex :: rest) store count =
        ⟨store, count, [(ex.id, StepOutcome.insert_failed)], [ex.id], true⟩) :=
  ⟨fun hgen =>
      mainLoop_gen_raises env rows maxEx ex rest store count hstop hdup htop
        hctx hgen,
    fun j hgen htr hins =>
      mainLoop_insert_fail env rows maxEx ex rest store count j hstop hdup
        htop hctx hgen htr hins⟩

/-- Witness for C5: a raising generator yields a skipped exercise and a
continuing batch; a failing insert aborts with the store unchanged. -/
theorem gen_exception_insert_failure_witness :
    mainLoop envRaise [rowB] (some 25) [exA] [] 0 =
      ⟨[], 0, [(1, StepOutcome.gen_error)], [1], false⟩ ∧
    mainLoop envInsFail [rowB] (some 25) [exA] [] 0 =
      ⟨[], 0, [(1, StepOutcome.insert_failed)], [1], true⟩ := by
  constructor
  · have h := (gen_exception_insert_failure envRaise [rowB] (some 25) exA [] [] 0
      (by decide) (by decide) (by decide) (by decide)).1 rfl
    rw [h]
    rfl
  · have h := (gen_exception_insert_failure envInsFail [rowB] (some 25) exA [] [] 0
      (by decide) (by decide) (by decide) (by decide)).2 tipsNoDisclaimer rfl
      rfl rfl
    rw [h]
    rfl

end THF
